import Mathlib

/-!
Verification of the event-notification dispatcher in
src/codex-rs/core/src/user_notification.rs.

The Rust file defines a closed enum `UserNotification` of session lifecycle
events, serialized to JSON by serde with an internal tag field named "type"
and kebab-case renaming, and a `UserNotifier` holding an optional command
vector; `notify` serializes an event and spawns the configured command with
the JSON appended as the final argument, swallowing all failures.

The embedding below mirrors the data model and the serde-derived serializer
(field order, kebab-case names, the skip-when-None attribute on the two
correlation identifiers, and the plain Option field that serializes None as
JSON null), and models `notify` as a pure function from the notifier, the
event, and a spawn-outcome oracle to an effect record listing the
serialization attempts, attempted launches (argv vectors), and log lines.
-/

/-- JSON values that the derived serializer can produce for this enum:
strings, unsigned integers, booleans, null, and arrays of strings
(the only array field is input_messages of type Vec of String). -/
inductive JValue where
  | str (s : String)
  | nat (n : Nat)
  | bool (b : Bool)
  | null
  | arr (elems : List String)
deriving Repr, DecidableEq

/-- Rust enum ApprovalType (user_notification.rs lines 57 to 66). -/
inductive ApprovalType where
  | Exec
  | Patch
  | Elicitation
deriving Repr, DecidableEq

/-- The serde kebab-case rendering of an ApprovalType unit variant:
it serializes as a bare JSON string. -/
def ApprovalType.tag : ApprovalType → String
  | .Exec => "exec"
  | .Patch => "patch"
  | .Elicitation => "elicitation"

/-- Rust enum UserNotification (user_notification.rs lines 92 to 187).
pid has Rust type u32, modelled as Nat; Vec of String as List String. -/
inductive UserNotification where
  | SessionStart (thread_id : String) (cwd : String) (pid : Nat)
  | SessionEnd (thread_id : String)
  | UserPromptSubmit (thread_id : String) (turn_id : String) (cwd : String)
      (prompt : String)
  | ApprovalRequested (thread_id : String) (turn_id : Option String)
      (request_id : Option String) (approval_type : ApprovalType)
      (description : String)
  | ApprovalResponse (thread_id : String) (turn_id : Option String)
      (request_id : Option String) (approved : Bool)
  | AgentTurnComplete (thread_id : String) (turn_id : String) (cwd : String)
      (input_messages : List String) (last_assistant_message : Option String)
  | TurnCancelled (thread_id : String) (turn_id : String)
deriving Repr, DecidableEq

/-- An Option field carrying the serde attribute
skip_serializing_if Option is_none: when None the key is omitted entirely. -/
def skipIfNoneField (key : String) : Option String → List (String × JValue)
  | some s => [(key, JValue.str s)]
  | none => []

/-- An Option field with no skip attribute (last_assistant_message of
AgentTurnComplete, line 178): serde serializes None as JSON null under
the key. -/
def plainOptionField (key : String) : Option String → List (String × JValue)
  | some s => [(key, JValue.str s)]
  | none => [(key, JValue.null)]

/-- The ordered key-value pairs of the JSON object that serde produces for a
UserNotification value: the internal tag field "type" first (serde attribute
tag equals "type"), then the variant fields in declaration order, all names
rewritten to kebab-case. -/
def UserNotification.jsonFields : UserNotification → List (String × JValue)
  | .SessionStart thread_id cwd pid =>
      [("type", JValue.str "session-start"),
       ("thread-id", JValue.str thread_id),
       ("cwd", JValue.str cwd),
       ("pid", JValue.nat pid)]
  | .SessionEnd thread_id =>
      [("type", JValue.str "session-end"),
       ("thread-id", JValue.str thread_id)]
  | .UserPromptSubmit thread_id turn_id cwd prompt =>
      [("type", JValue.str "user-prompt-submit"),
       ("thread-id", JValue.str thread_id),
       ("turn-id", JValue.str turn_id),
       ("cwd", JValue.str cwd),
       ("prompt", JValue.str prompt)]
  | .ApprovalRequested thread_id turn_id request_id approval_type description =>
      [("type", JValue.str "approval-requested"),
       ("thread-id", JValue.str thread_id)]
      ++ skipIfNoneField "turn-id" turn_id
      ++ skipIfNoneField "request-id" request_id
      ++ [("approval-type", JValue.str approval_type.tag),
          ("description", JValue.str description)]
  | .ApprovalResponse thread_id turn_id request_id approved =>
      [("type", JValue.str "approval-response"),
       ("thread-id", JValue.str thread_id)]
      ++ skipIfNoneField "turn-id" turn_id
      ++ skipIfNoneField "request-id" request_id
      ++ [("approved", JValue.bool approved)]
  | .AgentTurnComplete thread_id turn_id cwd input_messages last_assistant_message =>
      [("type", JValue.str "agent-turn-complete"),
       ("thread-id", JValue.str thread_id),
       ("turn-id", JValue.str turn_id),
       ("cwd", JValue.str cwd),
       ("input-messages", JValue.arr input_messages)]
      ++ plainOptionField "last-assistant-message" last_assistant_message
  | .TurnCancelled thread_id turn_id =>
      [("type", JValue.str "turn-cancelled"),
       ("thread-id", JValue.str thread_id),
       ("turn-id", JValue.str turn_id)]

/-- The keys of the serialized JSON object, in output order. -/
def UserNotification.jsonKeys (n : UserNotification) : List String :=
  n.jsonFields.map Prod.fst

/-- One lowercase hex digit, as serde_json writes them in control-character
escapes. -/
def hexDigitChar (n : Nat) : Char :=
  if n < 10 then Char.ofNat (48 + n) else Char.ofNat (87 + n)

/-- serde_json string escaping for one character: quote and backslash are
escaped, control characters below 0x20 use the short escapes b, t, n, f, r
or a u00XX escape, everything else passes through unchanged. -/
def escapeChar (c : Char) : String :=
  if c = '\"' then "\\\""
  else if c = '\\' then "\\\\"
  else if c = '\x08' then "\\b"
  else if c = '\x09' then "\\t"
  else if c = '\x0a' then "\\n"
  else if c = '\x0c' then "\\f"
  else if c = '\x0d' then "\\r"
  else if c.toNat < 32 then
    "\\u00" ++ String.singleton (hexDigitChar (c.toNat / 16))
      ++ String.singleton (hexDigitChar (c.toNat % 16))
  else String.singleton c

/-- serde_json escaping applied to a whole string. -/
def escapeString (s : String) : String :=
  String.join (s.toList.map escapeChar)

/-- A JSON string literal: escaped content between double quotes. -/
def quoteString (s : String) : String :=
  "\"" ++ escapeString s ++ "\""

/-- Compact rendering of a JSON value, exactly as serde_json to_string
does it (no whitespace, u32 as decimal digits). -/
def JValue.render : JValue → String
  | .str s => quoteString s
  | .nat n => toString n
  | .bool b => if b then "true" else "false"
  | .null => "null"
  | .arr elems => "[" ++ String.intercalate "," (elems.map quoteString) ++ "]"

/-- Compact rendering of a JSON object from its ordered key-value pairs. -/
def renderObject (fields : List (String × JValue)) : String :=
  "\x7b"
    ++ String.intercalate ","
        (fields.map (fun f => quoteString f.1 ++ ":" ++ f.2.render))
    ++ "\x7d"

/-- The canonical JSON serialization of a notification: what
serde_json to_string produces on this enum. -/
def UserNotification.toJsonString (n : UserNotification) : String :=
  renderObject n.jsonFields

/-- Model of the call serde_json to_string at line 27. On this enum the
derived Serialize implementation is infallible (only strings, integers,
booleans, vectors and options), so the result is always ok. -/
def serde_json_to_string (n : UserNotification) : Except String String :=
  Except.ok n.toJsonString

/-- Whether an Except result is the ok case. -/
def exceptIsOk : Except String String → Bool
  | .ok _ => true
  | .error _ => false

/-- Rust struct UserNotifier (lines 9 to 12): an optional command vector. -/
structure UserNotifier where
  notify_command : Option (List String)
deriving Repr, DecidableEq

/-- UserNotifier new (lines 49 to 53): stores the given option unchanged. -/
def UserNotifier.new (notify : Option (List String)) : UserNotifier :=
  ⟨notify⟩

/-- The externally observable effect of one notify call: how many times
serde_json to_string was invoked, the argv vectors of the spawns that were
attempted, the error-level log lines, and the warning-level log lines
(each warning names the configured executable and the OS error). -/
structure NotifyEffect where
  serializeCalls : Nat
  launches : List (List String)
  errorLogs : List String
  warnLogs : List (String × String)
deriving Repr, DecidableEq

/-- The effect of a notify call that did nothing. -/
def noEffect : NotifyEffect := ⟨0, [], [], []⟩

/-- Control flow of invoke_notify (lines 26 to 42) given the result of
serde_json to_string. On error: log and return, no spawn. On ok: build
argv as the command vector followed by the JSON string and attempt one
spawn; if the spawn fails (oracle spawnErr), log a warning naming
notify_command index 0 and the error, and return. -/
def invoke_notify_from (serdeResult : Except String String)
    (notify_command : List String) (spawnErr : Option String) : NotifyEffect :=
  match serdeResult with
  | .error _ => ⟨1, [], ["failed to serialise notification payload"], []⟩
  | .ok json =>
      ⟨1, [notify_command ++ [json]], [],
        match spawnErr with
        | some e => [(notify_command.headD "", e)]
        | none => []⟩

/-- invoke_notify (lines 26 to 42), with the spawn outcome supplied by the
oracle spawnErr (none means the OS started the child, some e means the
spawn syscall failed with message e). -/
def invoke_notify (notify_command : List String) (n : UserNotification)
    (spawnErr : Option String) : NotifyEffect :=
  invoke_notify_from (serde_json_to_string n) notify_command spawnErr

/-- notify (lines 18 to 24): a no-op unless a non-empty command is
configured. -/
def UserNotifier.notify (self : UserNotifier) (n : UserNotification)
    (spawnErr : Option String) : NotifyEffect :=
  match self.notify_command with
  | some cmd => if cmd.isEmpty then noEffect else invoke_notify cmd n spawnErr
  | none => noEffect

/-- One notify call as a state transition. notify takes self by shared
reference and the struct has no interior mutability, so the notifier state
after the call is the notifier state before it. -/
def notifyStep (self : UserNotifier) (n : UserNotification)
    (spawnErr : Option String) : UserNotifier × NotifyEffect :=
  (self, self.notify n spawnErr)

/-- Run a sequence of notify calls, threading the notifier state and
collecting the effect of each call in order. -/
def runNotifies (self : UserNotifier) :
    List (UserNotification × Option String) → UserNotifier × List NotifyEffect
  | [] => (self, [])
  | (n, e) :: rest =>
      let step := notifyStep self n e
      let next := runNotifies step.1 rest
      (next.1, step.2 :: next.2)

theorem runNotifies_fst (self : UserNotifier)
    (calls : List (UserNotification × Option String)) :
    (runNotifies self calls).1 = self := by
  induction calls with
  | nil => rfl
  | cons c rest ih =>
      obtain ⟨n, e⟩ := c
      simpa [runNotifies, notifyStep] using ih

theorem runNotifies_append (self : UserNotifier)
    (l₁ l₂ : List (UserNotification × Option String)) :
    (runNotifies self (l₁ ++ l₂)).2
      = (runNotifies self l₁).2 ++ (runNotifies self l₂).2 := by
  induction l₁ with
  | nil => rfl
  | cons c rest ih =>
      obtain ⟨n, e⟩ := c
      simp [runNotifies, notifyStep, ih]


/-- C7: the value SessionStart with thread_id t1, cwd /proj and pid 100
serializes to exactly the expected literal string, and pid is carried as a
native JSON number, not a string. -/
theorem session_start_literal_serialization :
    (UserNotification.SessionStart "t1" "/proj" 100).toJsonString
      = "\x7b\"type\":\"session-start\",\"thread-id\":\"t1\",\"cwd\":\"/proj\",\"pid\":100\x7d"
    ∧ ("pid", JValue.nat 100)
        ∈ (UserNotification.SessionStart "t1" "/proj" 100).jsonFields :=
  ⟨rfl, by decide⟩

/-- C6: the value ApprovalRequested with thread_id t1, turn_id some 5,
request_id none, approval_type Exec and description run tests serializes to
exactly the expected literal string, and the request-id key is absent. -/
theorem approval_requested_literal_serialization :
    (UserNotification.ApprovalRequested "t1" (some "5") none ApprovalType.Exec
        "run tests").toJsonString
      = "\x7b\"type\":\"approval-requested\",\"thread-id\":\"t1\",\"turn-id\":\"5\",\"approval-type\":\"exec\",\"description\":\"run tests\"\x7d"
    ∧ "request-id" ∉ (UserNotification.ApprovalRequested "t1" (some "5") none
        ApprovalType.Exec "run tests").jsonKeys :=
  ⟨rfl, by decide⟩

/-- C1 counterexample: the claim that every absent optional field is omitted
and no JSON null ever appears is false for last_assistant_message of
AgentTurnComplete, which has no skip attribute in the source: with the value
none, the serialized object carries the key last-assistant-message with
value null. -/
theorem agent_turn_complete_null_counterexample :
    ("last-assistant-message", JValue.null) ∈
      (UserNotification.AgentTurnComplete "t1" "7" "/proj" [] none).jsonFields
    ∧ (UserNotification.AgentTurnComplete "t1" "7" "/proj" [] none).toJsonString
      = "\x7b\"type\":\"agent-turn-complete\",\"thread-id\":\"t1\",\"turn-id\":\"7\",\"cwd\":\"/proj\",\"input-messages\":[],\"last-assistant-message\":null\x7d" :=
  ⟨by decide, rfl⟩

/-- C1 (amended): the absent optional correlation identifiers turn_id and
request_id of ApprovalRequested and ApprovalResponse are omitted entirely
(no key and no null for any choice of the other fields), but the optional
last_assistant_message of AgentTurnComplete is serialized as JSON null under
its key when absent rather than omitted. -/
theorem optional_field_omission_amended :
    ∀ (tid d turn cwd : String) (ty : ApprovalType) (t r : Option String)
      (b : Bool) (msgs : List String),
      "turn-id" ∉ (UserNotification.ApprovalRequested tid none r ty d).jsonKeys
    ∧ "request-id" ∉ (UserNotification.ApprovalRequested tid t none ty d).jsonKeys
    ∧ "turn-id" ∉ (UserNotification.ApprovalResponse tid none r b).jsonKeys
    ∧ "request-id" ∉ (UserNotification.ApprovalResponse tid t none b).jsonKeys
    ∧ (∀ k, (k, JValue.null)
        ∉ (UserNotification.ApprovalRequested tid t r ty d).jsonFields)
    ∧ (∀ k, (k, JValue.null)
        ∉ (UserNotification.ApprovalResponse tid t r b).jsonFields)
    ∧ ("last-assistant-message", JValue.null) ∈
        (UserNotification.AgentTurnComplete tid turn cwd msgs none).jsonFields := by
  intro tid d turn cwd ty t r b msgs
  refine ⟨?_, ?_, ?_, ?_, ?_, ?_, ?_⟩
  · cases r <;>
      simp [UserNotification.jsonKeys, UserNotification.jsonFields,
        skipIfNoneField]
  · cases t <;>
      simp [UserNotification.jsonKeys, UserNotification.jsonFields,
        skipIfNoneField]
  · cases r <;>
      simp [UserNotification.jsonKeys, UserNotification.jsonFields,
        skipIfNoneField]
  · cases t <;>
      simp [UserNotification.jsonKeys, UserNotification.jsonFields,
        skipIfNoneField]
  · intro k
    cases t <;> cases r <;>
      simp [UserNotification.jsonFields, skipIfNoneField, ApprovalType.tag]
  · intro k
    cases t <;> cases r <;>
      simp [UserNotification.jsonFields, skipIfNoneField]
  · simp [UserNotification.jsonFields, plainOptionField]

/-- C2: for ApprovalRequested and ApprovalResponse constructed with
turn_id some s and request_id none, the serialized object carries the
turn-id key with value s and no request-id key; and symmetrically with the
roles of the two identifiers exchanged. -/
theorem correlation_id_keys :
    ∀ (tid s d : String) (ty : ApprovalType) (b : Bool),
      ("turn-id", JValue.str s)
        ∈ (UserNotification.ApprovalRequested tid (some s) none ty d).jsonFields
    ∧ "request-id"
        ∉ (UserNotification.ApprovalRequested tid (some s) none ty d).jsonKeys
    ∧ ("request-id", JValue.str s)
        ∈ (UserNotification.ApprovalRequested tid none (some s) ty d).jsonFields
    ∧ "turn-id"
        ∉ (UserNotification.ApprovalRequested tid none (some s) ty d).jsonKeys
    ∧ ("turn-id", JValue.str s)
        ∈ (UserNotification.ApprovalResponse tid (some s) none b).jsonFields
    ∧ "request-id"
        ∉ (UserNotification.ApprovalResponse tid (some s) none b).jsonKeys
    ∧ ("request-id", JValue.str s)
        ∈ (UserNotification.ApprovalResponse tid none (some s) b).jsonFields
    ∧ "turn-id"
        ∉ (UserNotification.ApprovalResponse tid none (some s) b).jsonKeys := by
  intro tid s d ty b
  refine ⟨?_, ?_, ?_, ?_, ?_, ?_, ?_, ?_⟩ <;>
    simp [UserNotification.jsonFields, UserNotification.jsonKeys,
      skipIfNoneField]

/-- C8: for every variant and every value, the serialized object starts with
the tag field type carrying the variant name in lowercase hyphen-separated
form, and every declared non-absent field appears under its lowercase
hyphen-separated name with its declared value. -/
theorem variant_tag_and_field_names :
    ∀ (tid cwd turn prompt d : String) (p : Nat) (ty : ApprovalType)
      (t r lam : Option String) (b : Bool) (msgs : List String),
      (UserNotification.SessionStart tid cwd p).jsonFields
        = [("type", JValue.str "session-start"), ("thread-id", JValue.str tid),
           ("cwd", JValue.str cwd), ("pid", JValue.nat p)]
    ∧ (UserNotification.SessionEnd tid).jsonFields
        = [("type", JValue.str "session-end"), ("thread-id", JValue.str tid)]
    ∧ (UserNotification.UserPromptSubmit tid turn cwd prompt).jsonFields
        = [("type", JValue.str "user-prompt-submit"),
           ("thread-id", JValue.str tid), ("turn-id", JValue.str turn),
           ("cwd", JValue.str cwd), ("prompt", JValue.str prompt)]
    ∧ (UserNotification.TurnCancelled tid turn).jsonFields
        = [("type", JValue.str "turn-cancelled"), ("thread-id", JValue.str tid),
           ("turn-id", JValue.str turn)]
    ∧ (UserNotification.ApprovalRequested tid t r ty d).jsonFields.head?
        = some ("type", JValue.str "approval-requested")
    ∧ ("thread-id", JValue.str tid)
        ∈ (UserNotification.ApprovalRequested tid t r ty d).jsonFields
    ∧ ("approval-type", JValue.str ty.tag)
        ∈ (UserNotification.ApprovalRequested tid t r ty d).jsonFields
    ∧ ("description", JValue.str d)
        ∈ (UserNotification.ApprovalRequested tid t r ty d).jsonFields
    ∧ (∀ s, t = some s → ("turn-id", JValue.str s)
        ∈ (UserNotification.ApprovalRequested tid t r ty d).jsonFields)
    ∧ (∀ s, r = some s → ("request-id", JValue.str s)
        ∈ (UserNotification.ApprovalRequested tid t r ty d).jsonFields)
    ∧ (UserNotification.ApprovalResponse tid t r b).jsonFields.head?
        = some ("type", JValue.str "approval-response")
    ∧ ("thread-id", JValue.str tid)
        ∈ (UserNotification.ApprovalResponse tid t r b).jsonFields
    ∧ ("approved", JValue.bool b)
        ∈ (UserNotification.ApprovalResponse tid t r b).jsonFields
    ∧ (∀ s, t = some s → ("turn-id", JValue.str s)
        ∈ (UserNotification.ApprovalResponse tid t r b).jsonFields)
    ∧ (∀ s, r = some s → ("request-id", JValue.str s)
        ∈ (UserNotification.ApprovalResponse tid t r b).jsonFields)
    ∧ (UserNotification.AgentTurnComplete tid turn cwd msgs lam).jsonFields.head?
        = some ("type", JValue.str "agent-turn-complete")
    ∧ ("thread-id", JValue.str tid)
        ∈ (UserNotification.AgentTurnComplete tid turn cwd msgs lam).jsonFields
    ∧ ("turn-id", JValue.str turn)
        ∈ (UserNotification.AgentTurnComplete tid turn cwd msgs lam).jsonFields
    ∧ ("cwd", JValue.str cwd)
        ∈ (UserNotification.AgentTurnComplete tid turn cwd msgs lam).jsonFields
    ∧ ("input-messages", JValue.arr msgs)
        ∈ (UserNotification.AgentTurnComplete tid turn cwd msgs lam).jsonFields
    ∧ (∀ s, lam = some s → ("last-assistant-message", JValue.str s)
        ∈ (UserNotification.AgentTurnComplete tid turn cwd msgs lam).jsonFields) := by
  intro tid cwd turn prompt d p ty t r lam b msgs
  repeat' apply And.intro
  all_goals
    first
    | rfl
    | (intro s hs
       subst hs
       simp [UserNotification.jsonFields, skipIfNoneField, plainOptionField])
    | simp [UserNotification.jsonFields, skipIfNoneField, plainOptionField]

/-- Witness for C8: the conditional-membership clauses discharged at
concrete inputs via variant_tag_and_field_names. -/
theorem variant_tag_and_field_names_witness :
    ("turn-id", JValue.str "5") ∈ (UserNotification.ApprovalRequested "t"
        (some "5") (some "9") ApprovalType.Exec "d").jsonFields
    ∧ ("request-id", JValue.str "9") ∈ (UserNotification.ApprovalResponse "t"
        (some "5") (some "9") false).jsonFields
    ∧ ("last-assistant-message", JValue.str "m")
        ∈ (UserNotification.AgentTurnComplete "t" "1" "/p" []
            (some "m")).jsonFields := by
  have h := variant_tag_and_field_names "t" "/p" "1" "q" "d" 1 ApprovalType.Exec
    (some "5") (some "9") (some "m") false []
  obtain ⟨-, -, -, -, -, -, -, -, h9, -, -, -, -, -, h15, -, -, -, -, -, h21⟩ := h
  exact ⟨h9 "5" rfl, h15 "9" rfl, h21 "m" rfl⟩

/-- C3: a notifier holding a non-empty command initiates, per notify call,
exactly one launch whose argv is the command vector in order followed by one
final argument equal to the event's canonical JSON serialization. -/
theorem notify_launch_argv (cmd : List String) (n : UserNotification)
    (spawnErr : Option String) (h : cmd ≠ []) :
    ((UserNotifier.new (some cmd)).notify n spawnErr).launches
      = [cmd ++ [n.toJsonString]] := by
  cases cmd with
  | nil => exact absurd rfl h
  | cons a as =>
      cases spawnErr <;>
        simp [UserNotifier.notify, UserNotifier.new, invoke_notify,
          invoke_notify_from, serde_json_to_string]

/-- Witness for C3: a notifier with target echo launches exactly the argv
echo followed by the serialized event. -/
theorem notify_launch_argv_witness :
    ((UserNotifier.new (some ["echo"])).notify (UserNotification.SessionEnd "t1")
        none).launches
      = [["echo", (UserNotification.SessionEnd "t1").toJsonString]] := by
  simpa using
    notify_launch_argv ["echo"] (UserNotification.SessionEnd "t1") none
      (by simp)

/-- C4: notify never signals failure. The serialization-failure branch of
invoke_notify drops the event, records the diagnostic and attempts no
launch; on this enum serialization in fact always succeeds; on a spawn
failure the only observable is a warning naming the configured executable;
and each call in a sequence produces its effect independently of the
others, with the notifier state untouched. -/
theorem notify_never_signals_failure :
    ∀ (cmd : List String) (msg : String) (n : UserNotification) (e : String)
      (sp : Option String) (self : UserNotifier)
      (calls₁ calls₂ : List (UserNotification × Option String)),
      invoke_notify_from (Except.error msg) cmd sp
        = ⟨1, [], ["failed to serialise notification payload"], []⟩
    ∧ exceptIsOk (serde_json_to_string n) = true
    ∧ (cmd ≠ [] →
        ((UserNotifier.new (some cmd)).notify n (some e)).warnLogs
          = [(cmd.headD "", e)])
    ∧ (runNotifies self (calls₁ ++ calls₂)).2
        = (runNotifies self calls₁).2 ++ (runNotifies self calls₂).2
    ∧ (runNotifies self calls₁).1 = self := by
  intro cmd msg n e sp self calls₁ calls₂
  refine ⟨rfl, rfl, ?_, runNotifies_append self calls₁ calls₂,
    runNotifies_fst self calls₁⟩
  intro h
  cases cmd with
  | nil => exact absurd rfl h
  | cons a as =>
      simp [UserNotifier.notify, UserNotifier.new, invoke_notify,
        invoke_notify_from, serde_json_to_string]

/-- Witness for C4: a failing spawn of echo leaves only a warning naming
echo and the OS error. -/
theorem notify_never_signals_failure_witness :
    ((UserNotifier.new (some ["echo"])).notify (UserNotification.SessionEnd "t1")
        (some "oops")).warnLogs
      = [("echo", "oops")] := by
  have h := notify_never_signals_failure ["echo"] "m"
    (UserNotification.SessionEnd "t1") "oops" none (UserNotifier.new none) [] []
  simpa using h.2.2.1 (by simp)

/-- C5: a notifier constructed with no target, or with a present but empty
command vector, is a no-op on every notify call: zero serializations, zero
launches and zero logs, over any sequence of calls. -/
theorem no_target_noop :
    ∀ (n : UserNotification) (sp : Option String)
      (calls : List (UserNotification × Option String)),
      (UserNotifier.new none).notify n sp = noEffect
    ∧ (UserNotifier.new (some [])).notify n sp = noEffect
    ∧ (runNotifies (UserNotifier.new none) calls).2
        = List.replicate calls.length noEffect
    ∧ (runNotifies (UserNotifier.new (some [])) calls).2
        = List.replicate calls.length noEffect := by
  intro n sp calls
  refine ⟨rfl, rfl, ?_, ?_⟩
  · induction calls with
    | nil => rfl
    | cons c rest ih =>
        obtain ⟨m, e⟩ := c
        show (UserNotifier.new none).notify m e
            :: (runNotifies (UserNotifier.new none) rest).2
          = noEffect :: List.replicate rest.length noEffect
        rw [ih]
        rfl
  · induction calls with
    | nil => rfl
    | cons c rest ih =>
        obtain ⟨m, e⟩ := c
        show (UserNotifier.new (some [])).notify m e
            :: (runNotifies (UserNotifier.new (some [])) rest).2
          = noEffect :: List.replicate rest.length noEffect
        rw [ih]
        rfl

/-- C9: new stores the given optional target unchanged, with no validation,
and the stored command vector is never mutated: after any sequence of
notify calls the notifier still holds exactly what new was given. -/
theorem new_stores_target_unmutated :
    ∀ (t : Option (List String))
      (calls : List (UserNotification × Option String)),
      (UserNotifier.new t).notify_command = t
    ∧ (runNotifies (UserNotifier.new t) calls).1 = UserNotifier.new t
    ∧ ((runNotifies (UserNotifier.new t) calls).1).notify_command = t := by
  intro t calls
  refine ⟨rfl, runNotifies_fst _ calls, ?_⟩
  rw [runNotifies_fst]
  rfl

/-- C10: the serializer does not enforce mutual exclusivity of the
correlation identifiers: with both present the output carries both the
turn-id and request-id keys, with both absent it carries neither, and
serialization succeeds in all four situations for both approval variants. -/
theorem no_mutual_exclusivity_enforced :
    ∀ (tid t r d : String) (ty : ApprovalType) (b : Bool),
      "turn-id" ∈ (UserNotification.ApprovalRequested tid (some t) (some r)
        ty d).jsonKeys
    ∧ "request-id" ∈ (UserNotification.ApprovalRequested tid (some t) (some r)
        ty d).jsonKeys
    ∧ exceptIsOk (serde_json_to_string (UserNotification.ApprovalRequested tid
        (some t) (some r) ty d)) = true
    ∧ "turn-id" ∉ (UserNotification.ApprovalRequested tid none none
        ty d).jsonKeys
    ∧ "request-id" ∉ (UserNotification.ApprovalRequested tid none none
        ty d).jsonKeys
    ∧ exceptIsOk (serde_json_to_string (UserNotification.ApprovalRequested tid
        none none ty d)) = true
    ∧ "turn-id" ∈ (UserNotification.ApprovalResponse tid (some t) (some r)
        b).jsonKeys
    ∧ "request-id" ∈ (UserNotification.ApprovalResponse tid (some t) (some r)
        b).jsonKeys
    ∧ exceptIsOk (serde_json_to_string (UserNotification.ApprovalResponse tid
        (some t) (some r) b)) = true
    ∧ "turn-id" ∉ (UserNotification.ApprovalResponse tid none none b).jsonKeys
    ∧ "request-id" ∉ (UserNotification.ApprovalResponse tid none none
        b).jsonKeys
    ∧ exceptIsOk (serde_json_to_string (UserNotification.ApprovalResponse tid
        none none b)) = true := by
  intro tid t r d ty b
  refine ⟨?_, ?_, rfl, ?_, ?_, rfl, ?_, ?_, rfl, ?_, ?_, rfl⟩ <;>
    simp [UserNotification.jsonKeys, UserNotification.jsonFields,
      skipIfNoneField]
